import Mathlib

/-!
Verification of the YAOF settings-to-window reconciliation and synchronization
engine, shallowly embedded from the TypeScript sources:

* `plugins/core-settings` — `DynamicSettingsForm` (schema-driven settings form,
  debounced save, broadcast) and `OverlaySettingsPanel` (per-overlay settings,
  debounced store writes, `applyToOverlay` reconciler).
* `packages/sdk/src/hooks/use-settings.tsx` — `usePluginSettings` (store load
  with default fallback, change listener, `setSetting`).
* `packages/sdk/src/hooks/use-overlay-settings.tsx` — `useOverlaySettings`
  (`applySettings` with the initial-load click-through suppression,
  `resetToDefaults`).

JSON-style runtime values are modelled by `Value`; JS objects by association
lists in insertion order; `undefined` by `Option.none` at lookup sites (and by
`Value.undef` where a key is present but bound to `undefined`); the Tauri
store and window-manager invocations by explicit operation lists.
-/

/-- A JSON-style runtime value as stored in the Tauri store and passed around
the settings code. `undef` marks an entry whose key is present but bound to
the JS `undefined` (a schema field with no declared default). -/
inductive Value where
  | str (s : String)
  | num (n : Int)
  | bool (b : Bool)
  | strList (xs : List String)
  | obj (fields : List (String × Value))
  | null
  | undef

/-- JS object property access `o[key]`: first binding of `key` in insertion
order, `none` when the key is absent. -/
def getKey : List (String × α) → String → Option α
  | [], _ => none
  | (k0, v0) :: rest, key => if k0 = key then some v0 else getKey rest key

/-- JS spread-overwrite `\x7b...o, [key]: value\x7d`: replaces the binding in
place when the key exists (keeping its position), appends it otherwise. -/
def setKey : List (String × α) → String → α → List (String × α)
  | [], key, v => [(key, v)]
  | (k0, v0) :: rest, key, v =>
      if k0 = key then (key, v) :: rest else (k0, v0) :: setKey rest key v

/-- Whether a lookup result is nullish in the JS sense (`undefined` or
`null`), i.e. triggers the `??` operator. -/
def isNullish : Option Value → Bool
  | none => true
  | some Value.null => true
  | some Value.undef => true
  | some _ => false

/-- JS nullish coalescing `v ?? d` applied to a lookup result. -/
def nullishGetD (v : Option Value) (d : Value) : Value :=
  match v with
  | none => d
  | some Value.null => d
  | some Value.undef => d
  | some v0 => v0

/-- An entry of a `select` / `multiChoice` / `orderedList` field's `options`
list (`\x7bvalue, label\x7d` in the manifest). -/
structure SelectOption where
  value : String
  label : String
  deriving DecidableEq

/-- The `SettingField` tagged union from `packages/sdk/src/types/settings.ts`.
Optional members are `Option`s; `category` carries its nested fields as an
ordered association list. `slider.min` is kept optional because
`getDefaultValue` reads it defensively with `?? 0`. -/
inductive SettingField where
  | string (label : String) (default : Option String)
  | number (label : String) (default : Option Int)
  | boolean (label : String) (default : Option Bool)
  | select (label : String) (options : List SelectOption) (default : Option String)
  | color (label : String) (default : Option String)
  | slider (label : String) (min : Option Int) (max : Option Int) (step : Option Int)
      (default : Option Int)
  | keybind (label : String) (default : Option String)
  | multiChoice (label : String) (options : List SelectOption) (default : Option (List String))
  | orderedList (label : String) (options : List SelectOption) (default : Option (List String))
  | category (label : String) (fields : List (String × SettingField))

/-- A settings schema: ordered mapping from field name to field. -/
abbrev SettingsSchema := List (String × SettingField)

mutual

/-- The `getDefaultValue` helper of `DynamicSettingsForm`: the field's declared
default, with a kind-specific fallback; for `category` it builds a nested
object of nested-field defaults. -/
def getDefaultValue : SettingField → Value
  | .string _ d => .str (d.getD "")
  | .number _ d => .num (d.getD 0)
  | .boolean _ d => .bool (d.getD false)
  | .select _ options d => .str (d.getD ((options.head?.map SelectOption.value).getD ""))
  | .color _ d => .str (d.getD "#000000")
  | .slider _ min _ _ d => .num (d.getD (min.getD 0))
  | .keybind _ d => .str (d.getD "")
  | .multiChoice _ _ d => .strList (d.getD [])
  | .orderedList _ _ d => .strList (d.getD [])
  | .category _ fields => .obj (getDefaultFields fields)

/-- Defaults of a category's nested fields, key by key. -/
def getDefaultFields : List (String × SettingField) → List (String × Value)
  | [] => []
  | (k, f) :: rest => (k, getDefaultValue f) :: getDefaultFields rest

end

/-- The merge loop of `DynamicSettingsForm.loadSettings`: walk the schema keys
and take `stored[key] ?? getDefaultValue(field)` for each. -/
def mergeWithDefaults (schema : SettingsSchema) (stored : List (String × Value)) :
    List (String × Value) :=
  schema.map (fun kf => (kf.1, nullishGetD (getKey stored kf.1) (getDefaultValue kf.2)))

/-- The raw `field.default` member, as read by the `usePluginSettings`
`defaults` memo (no kind-specific fallback; absent means JS `undefined`). -/
def fieldDefault : SettingField → Option Value
  | .string _ d => d.map Value.str
  | .number _ d => d.map Value.num
  | .boolean _ d => d.map Value.bool
  | .select _ _ d => d.map Value.str
  | .color _ d => d.map Value.str
  | .slider _ _ _ _ d => d.map Value.num
  | .keybind _ d => d.map Value.str
  | .multiChoice _ _ d => d.map Value.strList
  | .orderedList _ _ d => d.map Value.strList
  | .category _ _ => none

/-- `field.default` as the value actually bound in a JS object entry
(`undefined` when no default is declared). -/
def fieldDefaultValue (f : SettingField) : Value :=
  (fieldDefault f).getD Value.undef

/-- The `OverlayDefinition` manifest record from the core-settings
`OverlaySettingsPanel` (static per-window declaration from `overlay.json`). -/
structure OverlayDefinition where
  width : Int
  height : Int
  x : Option Int
  y : Option Int
  defaultPosition : Option String
  clickThrough : Option Bool
  frameless : Option Bool
  route : Option String
  deriving DecidableEq

/-- The mutable per-window `OverlaySettings` record of the core-settings
`OverlaySettingsPanel`. -/
structure OverlaySettings where
  enabled : Bool
  x : Int
  y : Int
  width : Int
  height : Int
  alwaysOnTop : Bool
  clickThrough : Bool
  deriving DecidableEq

/-- A `Partial<OverlaySettings>` update: each field independently present or
absent. -/
structure OverlayUpdate where
  enabled : Option Bool
  x : Option Int
  y : Option Int
  width : Option Int
  height : Option Int
  alwaysOnTop : Option Bool
  clickThrough : Option Bool
  deriving DecidableEq

/-- The empty partial update (`\x7b\x7d`). -/
def emptyUpdate : OverlayUpdate :=
  ⟨none, none, none, none, none, none, none⟩

/-- The config object passed to the `spawn_overlay` command. -/
structure SpawnConfig where
  id : String
  pluginId : String
  entryPoint : String
  width : Int
  height : Int
  x : Int
  y : Int
  clickThrough : Bool
  frameless : Bool
  deriving DecidableEq

/-- A window-manager invocation. `close` models the `close_overlay` command
of the plugin's invocation surface (never issued by the reconciler). -/
inductive WindowOp where
  | spawn (config : SpawnConfig)
  | close (id : String)
  | setVisible (id : String) (visible : Bool)
  | updateGeometry (id : String) (x : Int) (y : Int) (width : Int) (height : Int)
  | setClickThrough (id : String) (enabled : Bool)
  | setAlwaysOnTop (id : String) (enabled : Bool)
  deriving DecidableEq

/-- The window id used for manager calls. -/
def overlayWindowId (pluginId overlayId : String) : String :=
  pluginId ++ "-" ++ overlayId

/-- The `applyToOverlay` reconciler of `OverlaySettingsPanel`, as the ordered
list of window-manager invocations it issues. `overlayExists` is the result
of the `overlay_exists` query made at the top of the pass. When the window
does not exist and `updates.enabled === true`, it spawns with the full
current settings and the entry point built from the manifest route
(defaulting to the root route); otherwise visibility, geometry, click-through
and always-on-top are driven by which update fields are present. -/
def applyToOverlay (pluginId overlayId : String) (overlayDefinition : OverlayDefinition)
    (overlayExists : Bool) (updates : OverlayUpdate) (currentSettings : OverlaySettings) :
    List WindowOp :=
  let wid := overlayWindowId pluginId overlayId
  if !overlayExists then
    if updates.enabled = some true then
      [WindowOp.spawn
        { id := wid
          pluginId := pluginId
          entryPoint := "yaof-plugin://" ++ pluginId ++ "/index.html#" ++
            overlayDefinition.route.getD "/"
          width := currentSettings.width
          height := currentSettings.height
          x := currentSettings.x
          y := currentSettings.y
          clickThrough := currentSettings.clickThrough
          frameless := true }]
    else []
  else if updates.enabled = some false then
    [WindowOp.setVisible wid false]
  else
    (if updates.enabled = some true then [WindowOp.setVisible wid true] else []) ++
    (if updates.x.isSome || updates.y.isSome || updates.width.isSome || updates.height.isSome then
      [WindowOp.updateGeometry wid currentSettings.x currentSettings.y
        currentSettings.width currentSettings.height]
    else []) ++
    (match updates.clickThrough with
     | some b => [WindowOp.setClickThrough wid b]
     | none => []) ++
    (match updates.alwaysOnTop with
     | some b => [WindowOp.setAlwaysOnTop wid b]
     | none => [])

/-- A Tauri store invocation (`store.set` / `store.save`). -/
inductive StoreOp where
  | set (key : String) (value : Value)
  | save

/-- Whether a store operation is a `save`. -/
def isSave : StoreOp → Bool
  | StoreOp.save => true
  | StoreOp.set _ _ => false

/-- JS spread-merge of two partial updates
(`\x7b...prev, ...incoming\x7d`): a field present in `incoming` overwrites
the buffered one, otherwise the buffered field survives. -/
def orDefined (incoming old : Option α) : Option α :=
  match incoming with
  | some v => some v
  | none => old

/-- The `pendingUpdatesRef` merge performed at the top of `debouncedUpdate`. -/
def mergeUpdates (prev incoming : OverlayUpdate) : OverlayUpdate :=
  { enabled := orDefined incoming.enabled prev.enabled
    x := orDefined incoming.x prev.x
    y := orDefined incoming.y prev.y
    width := orDefined incoming.width prev.width
    height := orDefined incoming.height prev.height
    alwaysOnTop := orDefined incoming.alwaysOnTop prev.alwaysOnTop
    clickThrough := orDefined incoming.clickThrough prev.clickThrough }

/-- The `Object.entries(pendingUpdates)` view of the pending buffer: one
entry per present field, with its store key and JSON value. Entries are
listed in the declaration order of `OverlaySettings`; the claims proved
below do not depend on entry order. -/
def bufferEntries (u : OverlayUpdate) : List (String × Value) :=
  (match u.enabled with | some v => [(("enabled" : String), Value.bool v)] | none => []) ++
  (match u.x with | some v => [(("x" : String), Value.num v)] | none => []) ++
  (match u.y with | some v => [(("y" : String), Value.num v)] | none => []) ++
  (match u.width with | some v => [(("width" : String), Value.num v)] | none => []) ++
  (match u.height with | some v => [(("height" : String), Value.num v)] | none => []) ++
  (match u.alwaysOnTop with | some v => [(("alwaysOnTop" : String), Value.bool v)] | none => []) ++
  (match u.clickThrough with | some v => [(("clickThrough" : String), Value.bool v)] | none => [])

/-- The store operations of one debounce flush: nothing when the buffer has
no keys, otherwise one `set` per buffered key followed by exactly one
`save` (the body of the `setTimeout` callback in `debouncedUpdate`). The
callback then hands the flushed updates to `applyToOverlay`, modelled
separately. -/
def flushOps (u : OverlayUpdate) : List StoreOp :=
  if (bufferEntries u).isEmpty then []
  else (bufferEntries u).map (fun kv => StoreOp.set kv.1 kv.2) ++ [StoreOp.save]

/-- The transient debounce state of `OverlaySettingsPanel`: the pending
update buffer and whether a timer is currently scheduled (at most one timer
is ever live, since every update clears the previous one). -/
structure DebState where
  buffer : OverlayUpdate
  timerActive : Bool
  deriving DecidableEq

/-- The initial debounce state: empty buffer, no timer. -/
def initDebState : DebState :=
  ⟨emptyUpdate, false⟩

/-- An event of the debounce machine: a call to `debouncedUpdate`, or the
scheduled timer firing after the quiet period. -/
inductive DebEvent where
  | update (u : OverlayUpdate)
  | timerFire

/-- One step of the `OverlaySettingsPanel` debounce machine, returning the
new state and the store operations issued by the step. An update merges
into the buffer, clears any existing timer and schedules a new one (the
immediate `setSettings` local-state update is display-only and not
modelled); the timer firing clears the buffer and, when the store handle
is ready, performs the flush. -/
def debStep (storeReady : Bool) (s : DebState) : DebEvent → DebState × List StoreOp
  | DebEvent.update u =>
      ({ buffer := mergeUpdates s.buffer u, timerActive := true }, [])
  | DebEvent.timerFire =>
      if s.timerActive then
        ({ buffer := emptyUpdate, timerActive := false },
         if storeReady then flushOps s.buffer else [])
      else (s, [])

/-- Run the debounce machine over a list of events, concatenating the store
operations issued. -/
def runDeb (storeReady : Bool) (s : DebState) : List DebEvent → DebState × List StoreOp
  | [] => (s, [])
  | e :: es =>
      let se := debStep storeReady s e
      let rest := runDeb storeReady se.1 es
      (rest.1, se.2 ++ rest.2)

/-- Rightmost defined value of a list of optional per-field updates (the
value the buffer holds after all of them are spread-merged in order). -/
def lastDefined : List (Option α) → Option α
  | [] => none
  | o :: os => orDefined (lastDefined os) o

/-- The payload of a settings-changed broadcast: the plugin id and the
complete settings object. -/
structure EventPayload where
  pluginId : String
  values : List (String × Value)

/-- An externally visible operation of `DynamicSettingsForm`: the
`plugin_settings_set_all` invocation, or an event emission on a named
topic. -/
inductive FormOp where
  | setAllValues (pluginId : String) (values : List (String × Value))
  | emitEvent (topic : String) (payload : EventPayload)

/-- The operations of `DynamicSettingsForm.debouncedSave`: persist the full
values object, then emit the settings-changed event carrying the same
complete object. The topic string is the template literal used by the
`emit` call. -/
def debouncedSaveOps (pluginId : String) (valuesToSave : List (String × Value)) : List FormOp :=
  [FormOp.setAllValues pluginId valuesToSave,
   FormOp.emitEvent ("yaof:settings:changed:" ++ pluginId)
     { pluginId := pluginId, values := valuesToSave }]

/-- The topic `usePluginSettings.setupListener` subscribes to for a plugin
(the template literal passed to `listen`). -/
def listenTopic (pluginId : String) : String :=
  "yaof:settings:changed:" ++ pluginId

/-- The state of `DynamicSettingsForm` relevant to saving: the `values`
React state, the `latestValuesRef` ref, whether a debounce timer is
scheduled, and the `hasChanges` flag. -/
structure FormState where
  values : List (String × Value)
  latestValues : List (String × Value)
  timerActive : Bool
  hasChanges : Bool

/-- `DynamicSettingsForm.handleChange`: write the key into the latest-values
ref and the React state, mark changes, clear any existing debounce timer
and schedule a new one. No save happens synchronously. -/
def handleChange (st : FormState) (key : String) (v : Value) : FormState × List FormOp :=
  let newValues := setKey st.latestValues key v
  ({ values := newValues, latestValues := newValues, timerActive := true, hasChanges := true },
   [])

/-- `DynamicSettingsForm.handleSave` (the Save button): cancel any pending
debounced save and perform the `set_all` + emit pair immediately and
synchronously, from the `values` state. -/
def handleSave (pluginId : String) (st : FormState) : FormState × List FormOp :=
  ({ st with timerActive := false, hasChanges := false },
   debouncedSaveOps pluginId st.values)

/-- `DynamicSettingsForm.handleReset` (the Reset to Defaults button): cancel
any pending debounced save, set both values and the latest-values ref to
the schema defaults, and schedule a NEW debounce timer for the save; no
operation is issued synchronously. -/
def handleReset (pluginId : String) (schema : SettingsSchema) (st : FormState) :
    FormState × List FormOp :=
  let defaults := getDefaultFields schema
  let _ := pluginId
  let _ := st
  ({ values := defaults, latestValues := defaults, timerActive := true, hasChanges := true },
   [])

/-- The form's debounce timer firing: when a timer is scheduled, run
`debouncedSave` on the latest-values ref. -/
def formTimerFire (pluginId : String) (st : FormState) : FormState × List FormOp :=
  if st.timerActive then
    ({ st with timerActive := false, hasChanges := false },
     debouncedSaveOps pluginId st.latestValues)
  else (st, [])

/-- Outcome of the `usePluginSettings` load effect: opening the store file
failed (`load` threw), a key read failed after the store was opened
(`s.get` threw, after `setStore` ran), or every read succeeded with the
given stored document. -/
inductive StoreLoadResult where
  | openFailed
  | readFailed
  | opened (stored : List (String × Value))

/-- The per-consumer state of `usePluginSettings` after its load effect:
whether the `store` state variable holds a handle, the `values` state, and
the loading flag. -/
structure PluginSettingsState where
  storeOpen : Bool
  values : List (String × Value)
  isLoading : Bool

/-- The `defaults` memo of `usePluginSettings`: one entry per schema key
bound to the raw `field.default`. -/
def pluginSettingsDefaults (schema : SettingsSchema) : List (String × Value) :=
  schema.map (fun kf => (kf.1, fieldDefaultValue kf.2))

/-- The `loadSettings` function of `usePluginSettings`: on success each
schema key takes the stored value when present and non-null, else the raw
field default; any failure is caught, falling back to the defaults memo —
but the store handle is only set when `load` itself succeeded. In every
case loading finishes (no error escapes the effect). -/
def loadPluginSettings (schema : SettingsSchema) : StoreLoadResult → PluginSettingsState
  | StoreLoadResult.openFailed =>
      { storeOpen := false, values := pluginSettingsDefaults schema, isLoading := false }
  | StoreLoadResult.readFailed =>
      { storeOpen := true, values := pluginSettingsDefaults schema, isLoading := false }
  | StoreLoadResult.opened stored =>
      { storeOpen := true
        isLoading := false
        values := schema.map (fun kf =>
          (kf.1,
           match getKey stored kf.1 with
           | some Value.null => fieldDefaultValue kf.2
           | some Value.undef => fieldDefaultValue kf.2
           | some v => v
           | none => fieldDefaultValue kf.2)) }

/-- `usePluginSettings.setSetting`: a no-op when the store handle is unset
(`if (!store) return`), otherwise update the local value and issue the
`set` + `save` pair. -/
def setSetting (st : PluginSettingsState) (key : String) (value : Value) :
    PluginSettingsState × List StoreOp :=
  if st.storeOpen then
    ({ st with values := setKey st.values key value },
     [StoreOp.set key value, StoreOp.save])
  else (st, [])

/-- The per-overlay `OverlaySettings` record of the SDK hook
`useOverlaySettings` (richer than the core-settings panel record: it also
tracks a position preset and opacity). -/
structure SdkOverlaySettings where
  enabled : Bool
  width : Int
  height : Int
  x : Int
  y : Int
  positionPreset : String
  opacity : Int
  clickThrough : Bool
  alwaysOnTop : Bool
  deriving DecidableEq

/-- The SDK hook's `applySettings(s, skipClickThrough)`: geometry first,
then click-through unless suppressed, then always-on-top, then visibility
from `enabled`. Opacity handling is commented out in the source and issues
no operation. -/
def applySettings (overlayWindowId : String) (s : SdkOverlaySettings)
    (skipClickThrough : Bool) : List WindowOp :=
  [WindowOp.updateGeometry overlayWindowId s.x s.y s.width s.height] ++
  (if !skipClickThrough then
    [WindowOp.setClickThrough overlayWindowId s.clickThrough]
  else []) ++
  [WindowOp.setAlwaysOnTop overlayWindowId s.alwaysOnTop,
   WindowOp.setVisible overlayWindowId s.enabled]

/-- The initial-load apply call in the SDK hook's `loadSettings`:
`applySettings(loaded, true)` — click-through suppressed because the
backend already applied the manifest value at window creation. -/
def loadApplySettings (overlayWindowId : String) (loaded : SdkOverlaySettings) : List WindowOp :=
  applySettings overlayWindowId loaded true

/-- The apply call at the end of the SDK hook's debounced flush:
`applySettings(currentSettings)` with `skipClickThrough` defaulting to
false. -/
def flushApplySettings (overlayWindowId : String) (current : SdkOverlaySettings) :
    List WindowOp :=
  applySettings overlayWindowId current false

/-- A `Partial<OverlaySettings>` update of the SDK hook. -/
structure SdkOverlayUpdate where
  enabled : Option Bool
  width : Option Int
  height : Option Int
  x : Option Int
  y : Option Int
  positionPreset : Option String
  opacity : Option Int
  clickThrough : Option Bool
  alwaysOnTop : Option Bool
  deriving DecidableEq

/-- Spread-merge of the SDK hook's pending updates. -/
def sdkMergeUpdates (prev incoming : SdkOverlayUpdate) : SdkOverlayUpdate :=
  { enabled := orDefined incoming.enabled prev.enabled
    width := orDefined incoming.width prev.width
    height := orDefined incoming.height prev.height
    x := orDefined incoming.x prev.x
    y := orDefined incoming.y prev.y
    positionPreset := orDefined incoming.positionPreset prev.positionPreset
    opacity := orDefined incoming.opacity prev.opacity
    clickThrough := orDefined incoming.clickThrough prev.clickThrough
    alwaysOnTop := orDefined incoming.alwaysOnTop prev.alwaysOnTop }

/-- The SDK hook's debounce buffer and timer flag. -/
structure SdkPendingState where
  pending : SdkOverlayUpdate
  timerActive : Bool
  deriving DecidableEq

/-- The SDK hook's `debouncedApply`: merge into the pending buffer, clear
any existing timer and schedule a new one; nothing is saved or applied
synchronously. -/
def sdkDebouncedApply (st : SdkPendingState) (updates : SdkOverlayUpdate) :
    SdkPendingState × List StoreOp :=
  ({ pending := sdkMergeUpdates st.pending updates, timerActive := true }, [])

/-- The SDK hook's `updateSettings`: update local state (display-only, not
modelled) and hand the updates to `debouncedApply`. -/
def sdkUpdateSettings (st : SdkPendingState) (updates : SdkOverlayUpdate) :
    SdkPendingState × List StoreOp :=
  sdkDebouncedApply st updates

/-- A full settings record viewed as a partial update with every field
present (what passing a complete `OverlaySettings` where a
`Partial<OverlaySettings>` is expected denotes). -/
def sdkFullUpdate (s : SdkOverlaySettings) : SdkOverlayUpdate :=
  { enabled := some s.enabled
    width := some s.width
    height := some s.height
    x := some s.x
    y := some s.y
    positionPreset := some s.positionPreset
    opacity := some s.opacity
    clickThrough := some s.clickThrough
    alwaysOnTop := some s.alwaysOnTop }

/-- The SDK hook's `resetToDefaults`: `updateSettings(manifestDefaults)`,
i.e. the manifest defaults go through the ordinary debounced path. -/
def resetToDefaults (manifestDefaults : SdkOverlaySettings) (st : SdkPendingState) :
    SdkPendingState × List StoreOp :=
  sdkUpdateSettings st (sdkFullUpdate manifestDefaults)

/-- The value a nested category key ends up with after the merge: look the
category up in the merged settings and, when it holds an object, look the
nested key up inside it. -/
def nestedMergedValue (merged : List (String × Value)) (catKey nestedKey : String) :
    Option Value :=
  match getKey merged catKey with
  | some (Value.obj nested) => getKey nested nestedKey
  | _ => none

/-- Looking a schema key up in the merged settings yields exactly the
nullish-coalesced choice between the stored value and the field default. -/
theorem getKey_mergeWithDefaults (S : SettingsSchema) (V : List (String × Value)) (k : String)
    (f : SettingField) (h : getKey S k = some f) :
    getKey (mergeWithDefaults S V) k = some (nullishGetD (getKey V k) (getDefaultValue f)) := by
  induction S with
  | nil => simp [getKey] at h
  | cons kf rest ih =>
      obtain ⟨k0, f0⟩ := kf
      by_cases hk : k0 = k
      · simp only [getKey, if_pos hk, Option.some.injEq] at h
        subst h
        simp [mergeWithDefaults, getKey, if_pos hk, hk]
      · simp only [getKey, if_neg hk] at h
        simpa [mergeWithDefaults, getKey, if_neg hk] using ih h

/-- The merged settings carry exactly the schema's keys, in schema order. -/
theorem mergeWithDefaults_keys (S : SettingsSchema) (V : List (String × Value)) :
    (mergeWithDefaults S V).map Prod.fst = S.map Prod.fst := by
  induction S with
  | nil => rfl
  | cons kf rest ih => simp [mergeWithDefaults, ih]

/-- A nested key of a category resolves, inside the recursively built
default object, to the nested field's default. -/
theorem getKey_getDefaultFields (fields : List (String × SettingField)) (nk : String)
    (nf : SettingField) (h : getKey fields nk = some nf) :
    getKey (getDefaultFields fields) nk = some (getDefaultValue nf) := by
  induction fields with
  | nil => simp [getKey] at h
  | cons kf rest ih =>
      obtain ⟨k0, f0⟩ := kf
      by_cases hk : k0 = nk
      · simp only [getKey, if_pos hk, Option.some.injEq] at h
        subst h
        simp [getDefaultFields, getKey, if_pos hk]
      · simp only [getKey, if_neg hk] at h
        simpa [getDefaultFields, getKey, if_neg hk] using ih h

/-- `orDefined` is associative. -/
theorem orDefined_assoc (a b c : Option α) :
    orDefined a (orDefined b c) = orDefined (orDefined a b) c := by
  cases a <;> rfl

/-- Spread-merging a whole debounce window coalesces each field to its last
defined update, independently of the other fields. `proj` is any field
projection of `OverlayUpdate` that commutes with the merge. -/
theorem foldl_mergeUpdates_proj (proj : OverlayUpdate → Option α)
    (hproj : ∀ a b, proj (mergeUpdates a b) = orDefined (proj b) (proj a))
    (us : List OverlayUpdate) (b : OverlayUpdate) :
    proj (us.foldl mergeUpdates b) = orDefined (lastDefined (us.map proj)) (proj b) := by
  induction us generalizing b with
  | nil => cases hb : proj b <;> simp [lastDefined, orDefined, hb]
  | cons u rest ih =>
      simp only [List.foldl_cons, List.map_cons, lastDefined]
      rw [ih, hproj, orDefined_assoc]

/-- Processing the updates of one debounce window and then letting the
timer fire clears the buffer, deactivates the timer, and issues exactly one
flush of the coalesced buffer (none of the updates themselves issue any
store operation). -/
theorem runDeb_window (storeReady : Bool) (s : DebState) (us : List OverlayUpdate)
    (h : us ≠ []) :
    runDeb storeReady s (us.map DebEvent.update ++ [DebEvent.timerFire]) =
      (initDebState,
       if storeReady then flushOps (us.foldl mergeUpdates s.buffer) else []) := by
  induction us generalizing s with
  | nil => exact absurd rfl h
  | cons u rest ih =>
      by_cases hrest : rest = []
      · subst hrest
        simp [runDeb, debStep, initDebState]
      · have step := ih { buffer := mergeUpdates s.buffer u, timerActive := true } hrest
        simp only [List.map_cons, List.cons_append, runDeb, debStep, List.foldl_cons,
          List.append_eq]
        rw [step]
        simp

/-- C1: when the live window does not exist, an update with
`enabled === true` issues exactly one spawn, whose config carries the full
current geometry and click-through and the entry point built from the
plugin base URL plus the manifest route (defaulting to the root route) —
and no other window operation; any other update issues no operation at
all. -/
theorem reconcile_unspawned_spec (pluginId overlayId : String) (d : OverlayDefinition)
    (u : OverlayUpdate) (s : OverlaySettings) :
    (u.enabled = some true →
      applyToOverlay pluginId overlayId d false u s =
        [WindowOp.spawn
          { id := overlayWindowId pluginId overlayId
            pluginId := pluginId
            entryPoint := "yaof-plugin://" ++ pluginId ++ "/index.html#" ++
              d.route.getD ("/")
            width := s.width
            height := s.height
            x := s.x
            y := s.y
            clickThrough := s.clickThrough
            frameless := true }]) ∧
    (u.enabled ≠ some true → applyToOverlay pluginId overlayId d false u s = []) := by
  constructor
  · intro h
    simp [applyToOverlay, h]
  · intro h
    simp [applyToOverlay, h]

/-- Witness for C1 at a concrete unspawned window with an enabling update
and with a disabling one. -/
theorem reconcile_unspawned_spec_witness :
    ((⟨some true, none, none, none, none, none, none⟩ : OverlayUpdate).enabled = some true) ∧
    applyToOverlay ("clock") ("main")
        ⟨300, 200, none, none, none, none, none, some ("/mini")⟩ false
        ⟨some true, none, none, none, none, none, none⟩
        ⟨true, 10, 20, 300, 200, true, false⟩ =
      [WindowOp.spawn
        ⟨("clock-main"), ("clock"), ("yaof-plugin://clock/index.html#/mini"),
          300, 200, 10, 20, false, true⟩] :=
  ⟨rfl,
   (reconcile_unspawned_spec ("clock") ("main")
      ⟨300, 200, none, none, none, none, none, some ("/mini")⟩
      ⟨some true, none, none, none, none, none, none⟩
      ⟨true, 10, 20, 300, 200, true, false⟩).1 rfl⟩

/-- C2: when the live window exists and the update has `enabled === false`,
exactly one operation is issued, `setVisible(windowId, false)` — no close,
geometry, click-through or always-on-top operation. -/
theorem reconcile_running_disable_spec (pluginId overlayId : String) (d : OverlayDefinition)
    (u : OverlayUpdate) (s : OverlaySettings) (h : u.enabled = some false) :
    applyToOverlay pluginId overlayId d true u s =
      [WindowOp.setVisible (overlayWindowId pluginId overlayId) false] := by
  simp [applyToOverlay, h]

/-- Witness for C2: a disabling update (which also touches geometry and
click-through fields) against a running window yields only the hide. -/
theorem reconcile_running_disable_spec_witness :
    ((⟨some false, some 5, none, none, none, none, some true⟩ : OverlayUpdate).enabled =
        some false) ∧
    applyToOverlay ("clock") ("main")
        ⟨300, 200, none, none, none, none, none, none⟩ true
        ⟨some false, some 5, none, none, none, none, some true⟩
        ⟨false, 10, 20, 300, 200, true, false⟩ =
      [WindowOp.setVisible ("clock-main") false] :=
  ⟨rfl,
   reconcile_running_disable_spec ("clock") ("main")
     ⟨300, 200, none, none, none, none, none, none⟩
     ⟨some false, some 5, none, none, none, none, some true⟩
     ⟨false, 10, 20, 300, 200, true, false⟩ rfl⟩

/-- C10: every spawn the reconciler ever issues carries `frameless := true`
in its config, whatever the inputs — in particular regardless of the
manifest's own `frameless` flag. -/
theorem spawn_always_frameless (pluginId overlayId : String) (d : OverlayDefinition)
    (ex : Bool) (u : OverlayUpdate) (s : OverlaySettings) (cfg : SpawnConfig)
    (h : WindowOp.spawn cfg ∈ applyToOverlay pluginId overlayId d ex u s) :
    cfg.frameless = true := by
  cases ex with
  | false =>
      rcases u with ⟨en, ux, uy, uw, uh, ua, uc⟩
      rcases en with _ | b
      · simp [applyToOverlay] at h
      · cases b
        · simp [applyToOverlay] at h
        · simp [applyToOverlay] at h
          simp [h]
  | true =>
      rcases u with ⟨en, ux, uy, uw, uh, ua, uc⟩
      have hb : en = none ∨ en = some false ∨ en = some true := by
        rcases en with _ | b
        · exact Or.inl rfl
        · cases b
          · exact Or.inr (Or.inl rfl)
          · exact Or.inr (Or.inr rfl)
      rcases hb with hb | hb | hb <;> subst hb <;>
        rcases ux with _ | x1 <;> rcases uy with _ | y1 <;>
        rcases uw with _ | w1 <;> rcases uh with _ | h1 <;>
        rcases ua with _ | a1 <;> rcases uc with _ | c1 <;>
        simp [applyToOverlay] at h

/-- Witness for C10: a concrete reconciliation pass that spawns — even with
the manifest declaring `frameless := some false` — carries
`frameless := true` in the spawn config. -/
theorem spawn_always_frameless_witness :
    (WindowOp.spawn
        ⟨("clock-main"), ("clock"), ("yaof-plugin://clock/index.html#/"),
          300, 200, 10, 20, false, true⟩ ∈
      applyToOverlay ("clock") ("main")
        ⟨300, 200, none, none, none, none, some false, none⟩ false
        ⟨some true, none, none, none, none, none, none⟩
        ⟨true, 10, 20, 300, 200, true, false⟩) ∧
    (⟨("clock-main"), ("clock"), ("yaof-plugin://clock/index.html#/"),
        300, 200, 10, 20, false, true⟩ : SpawnConfig).frameless = true :=
  ⟨List.mem_singleton.mpr rfl,
   spawn_always_frameless ("clock") ("main")
     ⟨300, 200, none, none, none, none, some false, none⟩ false
     ⟨some true, none, none, none, none, none, none⟩
     ⟨true, 10, 20, 300, 200, true, false⟩
     ⟨("clock-main"), ("clock"), ("yaof-plugin://clock/index.html#/"),
       300, 200, 10, 20, false, true⟩
     (List.mem_singleton.mpr rfl)⟩

/-- C3: for every schema and partial stored mapping, the merged settings
carry exactly the schema's keys (stray stored keys are ignored), and each
key resolves to the stored value when present and non-nullish, else to the
field's resolved default. -/
theorem merge_with_defaults_spec (S : SettingsSchema) (V : List (String × Value)) :
    ((mergeWithDefaults S V).map Prod.fst = S.map Prod.fst) ∧
    (∀ k f v, getKey S k = some f → getKey V k = some v → isNullish (some v) = false →
      getKey (mergeWithDefaults S V) k = some v) ∧
    (∀ k f, getKey S k = some f → isNullish (getKey V k) = true →
      getKey (mergeWithDefaults S V) k = some (getDefaultValue f)) := by
  refine ⟨mergeWithDefaults_keys S V, ?_, ?_⟩
  · intro k f v hS hV hnn
    rw [getKey_mergeWithDefaults S V k f hS, hV]
    cases v <;> simp [nullishGetD] <;> simp [isNullish] at hnn
  · intro k f hS hnull
    rw [getKey_mergeWithDefaults S V k f hS]
    cases hV : getKey V k with
    | none => rfl
    | some v =>
        rw [hV] at hnull
        cases v <;> simp [nullishGetD] <;> simp [isNullish] at hnull

/-- Witness for C3 on a concrete two-field schema: the stored key survives
the merge, the missing key falls back to its default, and a stray stored
key is dropped. -/
theorem merge_with_defaults_spec_witness :
    ((mergeWithDefaults
        [(("fmt"), SettingField.string ("Format") (some ("24h"))),
         (("big"), SettingField.boolean ("Big") (some true))]
        [(("fmt"), Value.str ("12h")), (("stray"), Value.num 7)]).map Prod.fst =
      [("fmt"), ("big")]) ∧
    getKey (mergeWithDefaults
        [(("fmt"), SettingField.string ("Format") (some ("24h"))),
         (("big"), SettingField.boolean ("Big") (some true))]
        [(("fmt"), Value.str ("12h")), (("stray"), Value.num 7)]) ("fmt") =
      some (Value.str ("12h")) ∧
    getKey (mergeWithDefaults
        [(("fmt"), SettingField.string ("Format") (some ("24h"))),
         (("big"), SettingField.boolean ("Big") (some true))]
        [(("fmt"), Value.str ("12h")), (("stray"), Value.num 7)]) ("big") =
      some (Value.bool true) :=
  ⟨rfl,
   (merge_with_defaults_spec
      [(("fmt"), SettingField.string ("Format") (some ("24h"))),
       (("big"), SettingField.boolean ("Big") (some true))]
      [(("fmt"), Value.str ("12h")), (("stray"), Value.num 7)]).2.1
     ("fmt") (SettingField.string ("Format") (some ("24h"))) (Value.str ("12h"))
     rfl rfl rfl,
   (merge_with_defaults_spec
      [(("fmt"), SettingField.string ("Format") (some ("24h"))),
       (("big"), SettingField.boolean ("Big") (some true))]
      [(("fmt"), Value.str ("12h")), (("stray"), Value.num 7)]).2.2
     ("big") (SettingField.boolean ("Big") (some true)) rfl rfl⟩

/-- Counterexample to C6: schema with one category holding a boolean field
whose default is `true`; the stored value for the category is present but
an empty object. The claim demands the merged nested value be the nested
default (`bool true`); the code takes the stored object wholesale, so the
nested key is simply absent from the merged settings. -/
theorem category_merge_shallow_cex :
    getKey [(("cat"), Value.obj [])] ("cat") = some (Value.obj []) ∧
    getDefaultValue (SettingField.boolean ("A") (some true)) = Value.bool true ∧
    nestedMergedValue
        (mergeWithDefaults
          [(("cat"), SettingField.category ("Cat")
            [(("a"), SettingField.boolean ("A") (some true))])]
          [(("cat"), Value.obj [])])
        ("cat") ("a") = none ∧
    (none : Option Value) ≠ some (Value.bool true) :=
  ⟨rfl, rfl, rfl, fun h => Option.noConfusion h⟩

/-- C6 (amended): when a schema field is a category, the merge is shallow at
the category key — when the stored category value is absent or nullish, the
merged value is the recursively built default object, in which every nested
key resolves to its nested field's default; when a stored category object is
present and non-nullish it is taken wholesale, without per-nested-key
merging. -/
theorem category_merge_spec (S : SettingsSchema) (V : List (String × Value))
    (k lbl : String) (fields : List (String × SettingField))
    (hk : getKey S k = some (SettingField.category lbl fields)) :
    (isNullish (getKey V k) = true →
      getKey (mergeWithDefaults S V) k = some (Value.obj (getDefaultFields fields)) ∧
      ∀ nk nf, getKey fields nk = some nf →
        getKey (getDefaultFields fields) nk = some (getDefaultValue nf)) ∧
    (∀ v, getKey V k = some v → isNullish (some v) = false →
      getKey (mergeWithDefaults S V) k = some v) := by
  constructor
  · intro hnull
    constructor
    · rw [getKey_mergeWithDefaults S V k _ hk]
      cases hV : getKey V k with
      | none => simp [nullishGetD, getDefaultValue]
      | some v =>
          rw [hV] at hnull
          cases v <;> simp [nullishGetD, getDefaultValue] <;> simp [isNullish] at hnull
    · exact fun nk nf h => getKey_getDefaultFields fields nk nf h
  · intro v hV hnn
    rw [getKey_mergeWithDefaults S V k _ hk, hV]
    cases v <;> simp [nullishGetD] <;> simp [isNullish] at hnn

/-- Witness for C6 (amended): with no stored category value, the merged
category is the default object and its nested key carries the nested
default. -/
theorem category_merge_spec_witness :
    isNullish (getKey ([] : List (String × Value)) ("cat")) = true ∧
    getKey (mergeWithDefaults
        [(("cat"), SettingField.category ("Cat")
          [(("a"), SettingField.boolean ("A") (some true))])]
        []) ("cat") =
      some (Value.obj [(("a"), Value.bool true)]) :=
  ⟨rfl,
   ((category_merge_spec
      [(("cat"), SettingField.category ("Cat")
        [(("a"), SettingField.boolean ("A") (some true))])]
      [] ("cat") ("Cat")
      [(("a"), SettingField.boolean ("A") (some true))] rfl).1 rfl).1⟩

/-- Merging a defined-or-not value over an empty buffer entry keeps it. -/
theorem orDefined_none_right (a : Option α) : orDefined a none = a := by
  cases a <;> rfl

/-- Mapping buffered entries to `set` operations produces no `save`. -/
theorem countP_isSave_sets (l : List (String × Value)) :
    (l.map (fun kv => StoreOp.set kv.1 kv.2)).countP (fun op => isSave op) = 0 := by
  induction l with
  | nil => rfl
  | cons kv rest ih => simp [List.countP_cons, isSave, ih]

/-- C4: a debounce window of one or more updates issues no store operation
until the quiet period, then exactly one flush: one `set` per distinct
buffered key followed by exactly one `save`, the machine returning to its
initial state (so a further timer event issues nothing); each field of the
coalesced buffer is the last update that touched it, computed independently
of the other fields. -/
theorem debounce_window_spec (us : List OverlayUpdate) (hne : us ≠ [])
    (hbuf : (bufferEntries (us.foldl mergeUpdates emptyUpdate)).isEmpty = false) :
    runDeb true initDebState (us.map DebEvent.update ++ [DebEvent.timerFire]) =
      (initDebState, flushOps (us.foldl mergeUpdates emptyUpdate)) ∧
    flushOps (us.foldl mergeUpdates emptyUpdate) =
      (bufferEntries (us.foldl mergeUpdates emptyUpdate)).map
        (fun kv => StoreOp.set kv.1 kv.2) ++ [StoreOp.save] ∧
    (flushOps (us.foldl mergeUpdates emptyUpdate)).countP (fun op => isSave op) = 1 ∧
    debStep true initDebState DebEvent.timerFire = (initDebState, []) ∧
    (us.foldl mergeUpdates emptyUpdate).enabled = lastDefined (us.map OverlayUpdate.enabled) ∧
    (us.foldl mergeUpdates emptyUpdate).x = lastDefined (us.map OverlayUpdate.x) ∧
    (us.foldl mergeUpdates emptyUpdate).y = lastDefined (us.map OverlayUpdate.y) ∧
    (us.foldl mergeUpdates emptyUpdate).width = lastDefined (us.map OverlayUpdate.width) ∧
    (us.foldl mergeUpdates emptyUpdate).height = lastDefined (us.map OverlayUpdate.height) ∧
    (us.foldl mergeUpdates emptyUpdate).alwaysOnTop =
      lastDefined (us.map OverlayUpdate.alwaysOnTop) ∧
    (us.foldl mergeUpdates emptyUpdate).clickThrough =
      lastDefined (us.map OverlayUpdate.clickThrough) := by
  have hflush : flushOps (us.foldl mergeUpdates emptyUpdate) =
      (bufferEntries (us.foldl mergeUpdates emptyUpdate)).map
        (fun kv => StoreOp.set kv.1 kv.2) ++ [StoreOp.save] := by
    simp [flushOps, hbuf]
  have hproj : ∀ (α : Type) (proj : OverlayUpdate → Option α),
      (∀ a b, proj (mergeUpdates a b) = orDefined (proj b) (proj a)) →
      proj emptyUpdate = none →
      proj (us.foldl mergeUpdates emptyUpdate) = lastDefined (us.map proj) := by
    intro α proj hcomm hempty
    rw [foldl_mergeUpdates_proj proj hcomm us emptyUpdate, hempty, orDefined_none_right]
  refine ⟨?_, hflush, ?_, rfl, ?_, ?_, ?_, ?_, ?_, ?_, ?_⟩
  · simpa using runDeb_window true initDebState us hne
  · rw [hflush]
    simp [List.countP_append, countP_isSave_sets, List.countP_cons, isSave]
  · exact hproj Bool OverlayUpdate.enabled (fun a b => rfl) rfl
  · exact hproj Int OverlayUpdate.x (fun a b => rfl) rfl
  · exact hproj Int OverlayUpdate.y (fun a b => rfl) rfl
  · exact hproj Int OverlayUpdate.width (fun a b => rfl) rfl
  · exact hproj Int OverlayUpdate.height (fun a b => rfl) rfl
  · exact hproj Bool OverlayUpdate.alwaysOnTop (fun a b => rfl) rfl
  · exact hproj Bool OverlayUpdate.clickThrough (fun a b => rfl) rfl

/-- Witness for C4: three updates in one window — two to `x` (the second
wins) and one to `clickThrough` — flush as two `set`s and one `save`. -/
theorem debounce_window_spec_witness :
    (([⟨none, some 5, none, none, none, none, none⟩,
       ⟨none, some 9, none, none, none, none, none⟩,
       ⟨none, none, none, none, none, none, some true⟩] : List OverlayUpdate) ≠ []) ∧
    runDeb true initDebState
        (([⟨none, some 5, none, none, none, none, none⟩,
           ⟨none, some 9, none, none, none, none, none⟩,
           ⟨none, none, none, none, none, none, some true⟩] :
            List OverlayUpdate).map DebEvent.update ++ [DebEvent.timerFire]) =
      (initDebState,
       [StoreOp.set ("x") (Value.num 9),
        StoreOp.set ("clickThrough") (Value.bool true),
        StoreOp.save]) :=
  ⟨by simp,
   (debounce_window_spec
      [⟨none, some 5, none, none, none, none, none⟩,
       ⟨none, some 9, none, none, none, none, none⟩,
       ⟨none, none, none, none, none, none, some true⟩]
      (by simp) rfl).1⟩

/-- Counterexample to C5: a concrete Reset-to-defaults action cancels the
pending timer but issues NO operation synchronously and leaves a new
debounce timer scheduled; the write of the default values only happens when
that later timer fires. The claim demanded an immediate, synchronous flush
for Reset as well as Save. -/
theorem handle_reset_not_immediate_cex :
    (handleReset ("clock") [(("a"), SettingField.boolean ("A") (some true))]
        ⟨[(("a"), Value.bool false)], [(("a"), Value.bool false)], true, true⟩).2 = [] ∧
    (handleReset ("clock") [(("a"), SettingField.boolean ("A") (some true))]
        ⟨[(("a"), Value.bool false)], [(("a"), Value.bool false)], true, true⟩).1.timerActive =
      true ∧
    formTimerFire ("clock")
        (handleReset ("clock") [(("a"), SettingField.boolean ("A") (some true))]
          ⟨[(("a"), Value.bool false)], [(("a"), Value.bool false)], true, true⟩).1 =
      (⟨[(("a"), Value.bool true)], [(("a"), Value.bool true)], false, false⟩,
       debouncedSaveOps ("clock") [(("a"), Value.bool true)]) :=
  ⟨rfl, rfl, rfl⟩

/-- C5 (amended): Save Now cancels any pending debounce timer and performs
the batched write (`set_all` then the publish) immediately and
synchronously; Reset to defaults cancels any pending timer but performs no
synchronous write — it resets the values to the schema defaults and
schedules a NEW debounced flush, which writes the defaults only when the
timer later fires. The SDK hook's `resetToDefaults` likewise goes through
its debounced path, issuing nothing synchronously and leaving a timer
scheduled. -/
theorem save_reset_flush_spec (pluginId : String) (schema : SettingsSchema)
    (st : FormState) (manifestDefaults : SdkOverlaySettings) (sdkSt : SdkPendingState) :
    ((handleSave pluginId st).1.timerActive = false ∧
      (handleSave pluginId st).2 = debouncedSaveOps pluginId st.values) ∧
    ((handleReset pluginId schema st).2 = [] ∧
      (handleReset pluginId schema st).1.timerActive = true ∧
      (handleReset pluginId schema st).1.latestValues = getDefaultFields schema ∧
      formTimerFire pluginId (handleReset pluginId schema st).1 =
        (⟨getDefaultFields schema, getDefaultFields schema, false, false⟩,
         debouncedSaveOps pluginId (getDefaultFields schema))) ∧
    ((resetToDefaults manifestDefaults sdkSt).2 = [] ∧
      (resetToDefaults manifestDefaults sdkSt).1.timerActive = true) :=
  ⟨⟨rfl, rfl⟩, ⟨rfl, rfl, rfl, rfl⟩, ⟨rfl, rfl⟩⟩

/-- Counterexample to C7: the broadcast emitted after a save uses the topic
built from the template literal with prefix segments separated by colons —
not the claimed hyphenated topic name. -/
theorem broadcast_topic_name_cex :
    debouncedSaveOps ("clock") [] =
      [FormOp.setAllValues ("clock") [],
       FormOp.emitEvent ("yaof:settings:changed:clock") ⟨("clock"), []⟩] ∧
    ("yaof:settings:changed:clock" : String) ≠ ("settings-changed:clock") :=
  ⟨rfl, by decide⟩

/-- C7 (amended): every settings-change broadcast for a plugin is emitted on
the topic built as the string prefix followed by the plugin id —
concretely, the colon-separated `yaof` settings-changed topic — and carries
the payload of plugin id and the complete settings object handed to the
save (not a diff); the subscriber side registers on the same topic name. -/
theorem broadcast_topic_spec (pluginId : String) (values : List (String × Value)) :
    debouncedSaveOps pluginId values =
      [FormOp.setAllValues pluginId values,
       FormOp.emitEvent ("yaof:settings:changed:" ++ pluginId) ⟨pluginId, values⟩] ∧
    listenTopic pluginId = "yaof:settings:changed:" ++ pluginId :=
  ⟨rfl, rfl⟩

/-- Counterexample to C8: when opening the persisted store fails, the
consumer does hold the schema defaults and loading completes, but the store
handle stays unset, so a subsequent `setSetting` call is a no-op — it
neither changes the local values nor issues any `set`/`save` — refuting
that the consumer is writable from that point. -/
theorem load_failure_unwritable_cex :
    (loadPluginSettings [(("fmt"), SettingField.string ("Format") (some ("24h")))]
        StoreLoadResult.openFailed).values = [(("fmt"), Value.str ("24h"))] ∧
    (loadPluginSettings [(("fmt"), SettingField.string ("Format") (some ("24h")))]
        StoreLoadResult.openFailed).isLoading = false ∧
    setSetting
        (loadPluginSettings [(("fmt"), SettingField.string ("Format") (some ("24h")))]
          StoreLoadResult.openFailed)
        ("fmt") (Value.str ("12h")) =
      (loadPluginSettings [(("fmt"), SettingField.string ("Format") (some ("24h")))]
        StoreLoadResult.openFailed, []) :=
  ⟨rfl, rfl, rfl⟩

/-- C8 (amended): any load failure leaves the consumer holding the schema
defaults with loading complete (the error is caught, not propagated); after
a read failure the store handle is set and `setSetting` updates the local
value and issues the `set` + `save` pair, but after an open failure the
handle is unset and every `setSetting` call is a no-op — the consumer is
only writable when the store itself opened. -/
theorem load_failure_defaults_spec (schema : SettingsSchema) :
    ((loadPluginSettings schema StoreLoadResult.openFailed).values =
        pluginSettingsDefaults schema ∧
      (loadPluginSettings schema StoreLoadResult.openFailed).isLoading = false ∧
      (loadPluginSettings schema StoreLoadResult.openFailed).storeOpen = false) ∧
    ((loadPluginSettings schema StoreLoadResult.readFailed).values =
        pluginSettingsDefaults schema ∧
      (loadPluginSettings schema StoreLoadResult.readFailed).isLoading = false ∧
      (loadPluginSettings schema StoreLoadResult.readFailed).storeOpen = true) ∧
    (∀ key v, setSetting (loadPluginSettings schema StoreLoadResult.openFailed) key v =
        (loadPluginSettings schema StoreLoadResult.openFailed, [])) ∧
    (∀ key v, setSetting (loadPluginSettings schema StoreLoadResult.readFailed) key v =
        ({ storeOpen := true
           values := setKey (pluginSettingsDefaults schema) key v
           isLoading := false },
         [StoreOp.set key v, StoreOp.save])) :=
  ⟨⟨rfl, rfl, rfl⟩, ⟨rfl, rfl, rfl⟩, fun _ _ => rfl, fun _ _ => rfl⟩

/-- C9: on the initial-load apply path the SDK hook passes
`skipClickThrough = true`, so geometry, always-on-top and visibility are
applied but click-through is not; on the non-initial apply path (the
debounced flush) click-through is applied along with the rest — the
suppression is specific to the initial-load call site. -/
theorem initial_load_click_through_spec (overlayWindowId : String)
    (s : SdkOverlaySettings) :
    loadApplySettings overlayWindowId s =
      [WindowOp.updateGeometry overlayWindowId s.x s.y s.width s.height,
       WindowOp.setAlwaysOnTop overlayWindowId s.alwaysOnTop,
       WindowOp.setVisible overlayWindowId s.enabled] ∧
    flushApplySettings overlayWindowId s =
      [WindowOp.updateGeometry overlayWindowId s.x s.y s.width s.height,
       WindowOp.setClickThrough overlayWindowId s.clickThrough,
       WindowOp.setAlwaysOnTop overlayWindowId s.alwaysOnTop,
       WindowOp.setVisible overlayWindowId s.enabled] :=
  ⟨rfl, rfl⟩
